import Mathlib

/-!
Shallow embedding of the Aetherwave content classification and theme
synthesis engine (src/api/bento_optimizer.py, src/api/advanced_classifier.py,
src/api/content_theme_analyzer.py), together with theorems settling the
frozen claims about it.

Python floats are modelled by exact rationals (ℚ); Python `round(x, p)`
is modelled by `pround` below.  Values read from image pixels by OpenCV
(edge counts, Laplacian variance, grayscale standard deviation, unique
colour counts) are inputs of the model, constrained only by the bounds
the source library guarantees.
-/

set_option maxHeartbeats 1000000

/-- Python `round(x, p)` rounding to `p` decimal places, modelled with
Mathlib's `round`.  Python uses ties-to-even while `round` uses
ties-up; no statement below depends on a tie. -/
def pround (p : ℕ) (x : ℚ) : ℚ := (round (x * 10 ^ p) : ℚ) / 10 ^ p

/-- Python `dict.get(key, default)` on an association list. -/
def pyGet (l : List (String × ℚ)) (k : String) (d : ℚ) : ℚ :=
  match l.find? (fun p => p.1 == k) with
  | some p => p.2
  | none => d

/-- Python `dict[key] = value`: replace in place if the key is present,
append otherwise. -/
def dictInsert {α : Type} (l : List (String × α)) (k : String) (v : α) :
    List (String × α) :=
  match l with
  | [] => [(k, v)]
  | (k0, v0) :: rest =>
    if k0 = k then (k, v) :: rest else (k0, v0) :: dictInsert rest k v

/-- The distinct elements of a list in first-encounter order (the key
order of a Python `dict` / `collections.Counter` built by successive
insertion). -/
def uniqueFirst (l : List String) : List String :=
  l.foldl (fun acc x => if x ∈ acc then acc else acc ++ [x]) []

/-- Characters stripped by Python `str.strip()`. -/
def isPySpace (c : Char) : Bool :=
  c = ' ' || c = '\t' || c = '\n' || c = '\r' || c = '\x0b' || c = '\x0c'

/-- Python `str.strip()` on a character list. -/
def pyStrip (l : List Char) : List Char :=
  ((l.dropWhile isPySpace).reverse.dropWhile isPySpace).reverse

/-- Whether `pat` is a leading run of `hay`. -/
def leadingRun : List Char → List Char → Bool
  | [], _ => true
  | _ :: _, [] => false
  | p :: ps, h :: hs => p = h && leadingRun ps hs

/-- Python substring containment `pat in hay` on character lists. -/
def hasSub (pat : List Char) : List Char → Bool
  | [] => pat.isEmpty
  | h :: hs => leadingRun pat (h :: hs) || hasSub pat hs

/-- Value of a hexadecimal digit character, as accepted by Python
`int(..., 16)`. -/
def hexDigitVal (c : Char) : Option ℤ :=
  if '0' ≤ c ∧ c ≤ '9' then some ((c.toNat - '0'.toNat : ℕ) : ℤ)
  else if 'a' ≤ c ∧ c ≤ 'f' then some ((c.toNat - 'a'.toNat + 10 : ℕ) : ℤ)
  else if 'A' ≤ c ∧ c ≤ 'F' then some ((c.toNat - 'A'.toNat + 10 : ℕ) : ℤ)
  else none

/-- Python `int(s, 16)` on a two-character slice: two hex digits, or a
sign / surrounding whitespace with a single digit; anything else raises
`ValueError`, modelled by `none`. -/
def parseHexPair (a b : Char) : Option ℤ :=
  match hexDigitVal a, hexDigitVal b with
  | some x, some y => some (16 * x + y)
  | _, _ =>
    if a = '+' then hexDigitVal b
    else if a = '-' then (hexDigitVal b).map (fun y => -y)
    else if isPySpace a then hexDigitVal b
    else if isPySpace b then hexDigitVal a
    else none

/-! ## BentoOptimizer (src/api/bento_optimizer.py) -/

/-- `AspectCategory` enum. -/
inductive AspectCategory
  | square
  | portrait
  | landscape
  | panoramic
  | vertical
deriving DecidableEq, Repr

/-- The `.value` string of an `AspectCategory` member. -/
def category_name : AspectCategory → String
  | .square => "square"
  | .portrait => "portrait"
  | .landscape => "landscape"
  | .panoramic => "panoramic"
  | .vertical => "vertical"

/-- A metadata value: a number, or some non-numeric value (abstracted
by its textual form).  Dividing non-numbers raises `TypeError` in
Python. -/
inductive PyVal
  | num (q : ℚ)
  | str (s : String)
deriving DecidableEq, Repr

/-- The metadata dict consumed by `BentoOptimizer.analyze_image`:
`filename`, `width`, `height`, each possibly missing. -/
structure ImageMeta where
  filename : Option String
  width : Option PyVal
  height : Option PyVal
deriving DecidableEq, Repr

/-- `ImageAnalysis` dataclass. -/
structure ImageAnalysis where
  filename : String
  width : ℚ
  height : ℚ
  aspect_ratio : ℚ
  category : AspectCategory
  crop_tolerance : ℚ
deriving DecidableEq, Repr

/-- The "default square analysis" returned from the `except` branch of
`analyze_image`. -/
def default_image_analysis (metadata : ImageMeta) : ImageAnalysis :=
  { filename := metadata.filename.getD ""
    width := 1, height := 1, aspect_ratio := 1
    category := .square, crop_tolerance := 0.8 }

/-- The aspect-ratio categorisation chain of `analyze_image`. -/
def categorize_aspect (aspect_ratio : ℚ) : AspectCategory × ℚ :=
  if 0.9 ≤ aspect_ratio ∧ aspect_ratio ≤ 1.1 then (.square, 0.8)
  else if aspect_ratio < 0.6 then (.vertical, 0.3)
  else if aspect_ratio < 0.9 then (.portrait, 0.5)
  else if aspect_ratio > 1.8 then (.panoramic, 0.4)
  else (.landscape, 0.6)

/-- `BentoOptimizer.analyze_image`.  Missing `width`/`height` keys
default to 1; a zero height (`ZeroDivisionError`) or a non-numeric
width or height (`TypeError`) is caught by the `except` branch, which
returns the default square analysis. -/
def analyze_image (metadata : ImageMeta) : ImageAnalysis :=
  match metadata.width.getD (.num 1), metadata.height.getD (.num 1) with
  | .num width, .num height =>
    if height = 0 then default_image_analysis metadata
    else
      let aspect_ratio := width / height
      let c := categorize_aspect aspect_ratio
      { filename := metadata.filename.getD ""
        width := width, height := height, aspect_ratio := aspect_ratio
        category := c.1, crop_tolerance := c.2 }
  | _, _ => default_image_analysis metadata

/-- `TileSlot` dataclass. -/
structure TileSlot where
  row : ℕ
  col : ℕ
  width : ℕ
  height : ℕ
  aspect_ratio : ℚ
  preferred_categories : List AspectCategory
  importance : ℚ
deriving DecidableEq, Repr

/-- `BentoPattern` dataclass. -/
structure BentoPattern where
  name : String
  description : String
  slots : List TileSlot
  ideal_for : List AspectCategory
deriving DecidableEq, Repr

/-- `BentoOptimizer._create_bento_patterns`: the fixed pattern
catalogue. -/
def create_bento_patterns : List BentoPattern :=
  [ { name := "portrait_showcase"
      description := "Optimized for portrait/vertical images"
      slots :=
        [ ⟨0, 0, 2, 3, 0.67, [.portrait], 1.0⟩
        , ⟨0, 2, 1, 1, 1.0, [.square], 0.6⟩
        , ⟨1, 2, 1, 1, 1.0, [.square], 0.6⟩
        , ⟨2, 2, 1, 1, 1.0, [.square], 0.6⟩
        , ⟨0, 3, 2, 1, 2.0, [.landscape], 0.8⟩
        , ⟨1, 3, 2, 2, 1.0, [.portrait], 0.9⟩ ]
      ideal_for := [.portrait, .vertical] }
  , { name := "landscape_gallery"
      description := "Optimized for landscape/wide images"
      slots :=
        [ ⟨0, 0, 1, 3, 3.0, [.panoramic], 1.0⟩
        , ⟨1, 0, 2, 2, 1.0, [.landscape], 0.9⟩
        , ⟨1, 2, 1, 1, 1.0, [.square], 0.7⟩
        , ⟨2, 2, 1, 1, 1.0, [.square], 0.7⟩
        , ⟨3, 0, 1, 2, 2.0, [.landscape], 0.8⟩
        , ⟨3, 2, 1, 1, 1.0, [.portrait], 0.6⟩ ]
      ideal_for := [.landscape, .panoramic] }
  , { name := "balanced_mix"
      description := "Balanced layout for mixed aspect ratios"
      slots :=
        [ ⟨0, 0, 2, 2, 1.0, [.square, .landscape], 1.0⟩
        , ⟨0, 2, 1, 2, 0.5, [.portrait], 0.8⟩
        , ⟨2, 0, 1, 1, 1.0, [.square], 0.6⟩
        , ⟨2, 1, 1, 1, 1.0, [.square], 0.6⟩
        , ⟨2, 2, 1, 1, 1.0, [.square], 0.6⟩
        , ⟨1, 2, 1, 1, 1.0, [.square], 0.7⟩ ]
      ideal_for := [.square] }
  , { name := "grid_harmony"
      description := "Perfect for square and near-square images"
      slots :=
        [ ⟨0, 0, 2, 2, 1.0, [.square], 1.0⟩
        , ⟨0, 2, 1, 1, 1.0, [.square], 0.8⟩
        , ⟨1, 2, 1, 1, 1.0, [.square], 0.8⟩
        , ⟨2, 0, 1, 1, 1.0, [.square], 0.7⟩
        , ⟨2, 1, 1, 1, 1.0, [.square], 0.7⟩
        , ⟨2, 2, 1, 1, 1.0, [.square], 0.7⟩ ]
      ideal_for := [.square] } ]

/-- The `category_counts` / `category_percentages` computation inside
`BentoOptimizer.analyze_collection` (categories keyed in
first-encounter order, value = count / total). -/
def collection_percentages (image_metadatas : List ImageMeta) :
    List (String × ℚ) :=
  let analyses := image_metadatas.map analyze_image
  let cats := analyses.map (fun a => category_name a.category)
  (uniqueFirst cats).map (fun c => (c, (cats.count c : ℚ) / cats.length))

/-- `BentoOptimizer._recommend_patterns`. -/
def recommend_patterns (category_percentages : List (String × ℚ)) :
    List String :=
  let recommendations :=
    (if pyGet category_percentages "portrait" 0 > 0.5
      then ["portrait_showcase"] else []) ++
    (if pyGet category_percentages "landscape" 0 +
        pyGet category_percentages "panoramic" 0 > 0.5
      then ["landscape_gallery"] else []) ++
    (if pyGet category_percentages "square" 0 > 0.6
      then ["grid_harmony"] else [])
  let recommendations :=
    if recommendations = [] ∨
        (category_percentages.map Prod.snd).dedup.length > 1
      then recommendations ++ ["balanced_mix"] else recommendations
  recommendations.take 3

/-- One value of the `assignments` dict built by `optimize_layout`. -/
structure SlotAssignment where
  filename : String
  aspect_match : ℚ
  crop_impact : ℚ
deriving DecidableEq, Repr

/-- The dict returned by `optimize_layout` on success. -/
structure LayoutResult where
  pattern : String
  assignments : List (String × SlotAssignment)
  total_slots : ℕ
  filled_slots : ℕ
  optimization_score : ℚ
deriving DecidableEq, Repr

/-- `optimize_layout` either returns an error-shaped dict
`{"error": msg}` or a layout dict. -/
inductive OptimizeResult
  | error (msg : String)
  | ok (res : LayoutResult)
deriving DecidableEq, Repr

/-- The per-image score computed inside
`BentoOptimizer._find_best_image_for_slot`. -/
def score_image_for_slot (slot : TileSlot) (image : ImageAnalysis) : ℚ :=
  let aspect_diff := |image.aspect_ratio - slot.aspect_ratio|
  let aspect_score := max 0 (1 - aspect_diff)
  aspect_score * 0.5 +
    (if image.category ∈ slot.preferred_categories then 0.3 else 0) +
    image.crop_tolerance * 0.2

/-- `BentoOptimizer._find_best_image_for_slot`: highest-scoring image
whose filename is not yet used (Python's stable sort with
`reverse=True` keeps earlier images first among equal scores). -/
def find_best_image_for_slot (slot : TileSlot)
    (analyses : List ImageAnalysis) (used_images : List String) :
    Option ImageAnalysis :=
  let available_images :=
    analyses.filter (fun a => a.filename ∉ used_images)
  if available_images.isEmpty then none
  else
    let scored_images :=
      available_images.map (fun image => (score_image_for_slot slot image, image))
    match scored_images.mergeSort (fun x y => y.1 ≤ x.1) with
    | [] => none
    | best :: _ => some best.2

/-- The f-string key `slot_{row}_{col}`. -/
def slot_key (slot : TileSlot) : String :=
  "slot_" ++ toString slot.row ++ "_" ++ toString slot.col

/-- The assignment loop of `optimize_layout`: walk the sorted slots,
assign the best available image to each and mark its filename used. -/
def assign_loop (analyses : List ImageAnalysis) :
    List TileSlot → List (String × SlotAssignment) × List String →
    List (String × SlotAssignment) × List String
  | [], state => state
  | slot :: rest, (assignments, used_images) =>
    match find_best_image_for_slot slot analyses used_images with
    | none => assign_loop analyses rest (assignments, used_images)
    | some best_image =>
      assign_loop analyses rest
        (dictInsert assignments (slot_key slot)
          { filename := best_image.filename
            aspect_match := |best_image.aspect_ratio - slot.aspect_ratio|
            crop_impact := max 0 (1 - best_image.crop_tolerance) },
         best_image.filename :: used_images)

/-- `BentoOptimizer._calculate_optimization_score`. -/
def calculate_optimization_score
    (assignments : List (String × SlotAssignment)) : ℚ :=
  if assignments = [] then 0
  else
    (assignments.map (fun p =>
      (max 0 (1 - p.2.aspect_match) + max 0 (1 - p.2.crop_impact)) / 2)).sum /
      assignments.length

/-- `BentoOptimizer.optimize_layout`.  Slots are processed in
descending importance (stable among ties, as Python's `sorted` with
`reverse=True`). -/
def optimize_layout (pattern_name : String)
    (image_metadatas : List ImageMeta) : OptimizeResult :=
  match create_bento_patterns.find? (fun p => p.name == pattern_name) with
  | none => .error ("Pattern \x27" ++ pattern_name ++ "\x27 not found")
  | some pattern =>
    let analyses := image_metadatas.map analyze_image
    let sorted_slots :=
      pattern.slots.mergeSort (fun a b => b.importance ≤ a.importance)
    let state := assign_loop analyses sorted_slots ([], [])
    .ok
      { pattern := pattern_name
        assignments := state.1
        total_slots := pattern.slots.length
        filled_slots := state.1.length
        optimization_score := calculate_optimization_score state.1 }

/-! ## AdvancedImageClassifier (src/api/advanced_classifier.py) -/

/-- The dict returned by `ImageComplexityAnalyzer.analyze_complexity`
(all five keys always present). -/
structure ComplexityProfile where
  edge_density : ℚ
  texture_complexity : ℚ
  color_complexity : ℚ
  contrast : ℚ
  overall_complexity : ℚ
deriving DecidableEq, Repr

/-- The pixel statistics OpenCV computes for a successfully loaded
image: Canny edge pixel count, total pixel count, Laplacian variance
(`none` models the `cv2.error`/`AttributeError` branch of
`_calculate_texture_complexity`), unique colour count of the 100×100
downsample, and grayscale standard deviation. -/
structure ImageStats where
  edge_pixels : ℕ
  total_pixels : ℕ
  laplacian_variance : Option ℚ
  unique_colors : ℕ
  gray_std : ℚ
deriving DecidableEq, Repr

/-- `ImageComplexityAnalyzer._calculate_edge_density`. -/
def calculate_edge_density (s : ImageStats) : ℚ :=
  (s.edge_pixels : ℚ) / (s.total_pixels : ℚ)

/-- `ImageComplexityAnalyzer._calculate_texture_complexity` (the
`except` branch returns 0.5). -/
def calculate_texture_complexity (s : ImageStats) : ℚ :=
  match s.laplacian_variance with
  | some variance => min (variance / 10000) 1
  | none => 0.5

/-- `ImageComplexityAnalyzer._calculate_color_complexity`. -/
def calculate_color_complexity (s : ImageStats) : ℚ :=
  min ((s.unique_colors : ℚ) / 10000) 1

/-- `ImageComplexityAnalyzer._calculate_contrast`. -/
def calculate_contrast (s : ImageStats) : ℚ :=
  min (s.gray_std / 128) 1

/-- `ImageComplexityAnalyzer._get_fallback_complexity`. -/
def get_fallback_complexity : ComplexityProfile :=
  { edge_density := 0.3
    texture_complexity := 0.5
    color_complexity := 0.4
    contrast := 0.6
    overall_complexity := 0.45 }

/-- The success path of `ImageComplexityAnalyzer.analyze_complexity`
on a loaded image's statistics. -/
def analyze_complexity (s : ImageStats) : ComplexityProfile :=
  let edge_density := calculate_edge_density s
  let texture_complexity := calculate_texture_complexity s
  let color_complexity := calculate_color_complexity s
  let contrast := calculate_contrast s
  let overall_complexity :=
    edge_density * 0.3 + texture_complexity * 0.3 +
      color_complexity * 0.2 + contrast * 0.2
  { edge_density := pround 3 edge_density
    texture_complexity := pround 3 texture_complexity
    color_complexity := pround 3 color_complexity
    contrast := pround 3 contrast
    overall_complexity := pround 3 overall_complexity }

/-- The dict returned by `ColorAnalyzer.analyze_colors` (keys always
present in both the success and the fallback branch). -/
structure ColorProfile where
  dominant_color : String
  palette : List String
  temperature : String
  harmony_type : String
  color_diversity : ℚ
  brightness : ℚ
  saturation : ℚ
deriving DecidableEq, Repr

/-- `ColorAnalyzer._get_fallback_colors`. -/
def get_fallback_colors : ColorProfile :=
  { dominant_color := "#1a1a2e"
    palette := ["#1a1a2e", "#16213e", "#0f3460"]
    temperature := "cool"
    harmony_type := "monochromatic"
    color_diversity := 0.3
    brightness := 0.2
    saturation := 0.5 }

/-- `MoodAnalyzer._determine_primary_mood`. -/
def determine_primary_mood (brightness saturation : ℚ)
    (temperature : String) (complexity : ℚ) : String :=
  if brightness > 0.7 ∧ saturation > 0.5 then
    if temperature = "warm" then "energetic" else "serene"
  else if brightness < 0.3 then
    if complexity > 0.6 then "dramatic" else "mysterious"
  else if saturation > 0.7 then
    if temperature = "warm" then "vibrant" else "cinematic"
  else if complexity > 0.7 then "dynamic"
  else if brightness > 0.5 ∧ saturation < 0.3 then "peaceful"
  else "balanced"

/-- The mood decision table exactly as the specification claim states
it: six rules in the stated order, first match wins.  Used to compare
the claim's table against `determine_primary_mood`. -/
def mood_table_spec (brightness saturation : ℚ)
    (temperature : String) (complexity : ℚ) : String :=
  if brightness > 0.7 ∧ saturation > 0.5 then
    if temperature = "warm" then "energetic" else "serene"
  else if brightness < 0.3 then
    if complexity > 0.6 then "dramatic" else "mysterious"
  else if saturation > 0.7 then
    if temperature = "warm" then "vibrant" else "cinematic"
  else if complexity > 0.7 then "dynamic"
  else if brightness > 0.5 ∧ saturation < 0.3 then "peaceful"
  else "balanced"

/-- `MoodAnalyzer._calculate_mood_confidence`. -/
def calculate_mood_confidence (brightness saturation complexity : ℚ) : ℚ :=
  let brightness_conf := |brightness - 0.5| * 2
  let saturation_conf := |saturation - 0.5| * 2
  let complexity_conf := |complexity - 0.5| * 2
  let avg_confidence := (brightness_conf + saturation_conf + complexity_conf) / 3
  min (max avg_confidence 0.3) 0.95

/-- `MoodAnalyzer._calculate_energy_level`. -/
def calculate_energy_level (saturation complexity : ℚ) : String :=
  let energy_score := (saturation + complexity) / 2
  if energy_score > 0.7 then "high"
  else if energy_score > 0.4 then "medium"
  else "low"

/-- `MoodAnalyzer._determine_emotional_tone`. -/
def determine_emotional_tone (brightness : ℚ) (temperature : String) :
    String :=
  if brightness > 0.6 then
    if temperature = "warm" then "uplifting" else "calm"
  else if brightness < 0.4 then
    if temperature = "cool" then "contemplative" else "intense"
  else "neutral"

/-- The `mood_factors` sub-dict of a mood analysis. -/
structure MoodFactors where
  brightness_influence : ℚ
  saturation_influence : ℚ
  complexity_influence : ℚ
  temperature_influence : String
deriving DecidableEq, Repr

/-- The dict returned by `MoodAnalyzer.analyze_mood`. -/
structure MoodProfile where
  primary_mood : String
  emotional_tone : String
  energy_level : String
  confidence : ℚ
  mood_factors : MoodFactors
deriving DecidableEq, Repr

/-- `MoodAnalyzer.analyze_mood` on the structured dicts produced by the
colour and complexity analyzers (whose keys are always present, so the
`.get` defaults never fire and the `except` branch is unreachable). -/
def analyze_mood (color_data : ColorProfile)
    (complexity_data : ComplexityProfile) : MoodProfile :=
  let brightness := color_data.brightness
  let saturation := color_data.saturation
  let temperature := color_data.temperature
  let complexity := complexity_data.overall_complexity
  { primary_mood := determine_primary_mood brightness saturation temperature complexity
    emotional_tone := determine_emotional_tone brightness temperature
    energy_level := calculate_energy_level saturation complexity
    confidence := pround 3 (calculate_mood_confidence brightness saturation complexity)
    mood_factors :=
      { brightness_influence := pround 3 brightness
        saturation_influence := pround 3 saturation
        complexity_influence := pround 3 complexity
        temperature_influence := temperature } }

/-- `MoodAnalyzer._get_fallback_mood`. -/
def get_fallback_mood : MoodProfile :=
  { primary_mood := "balanced"
    emotional_tone := "neutral"
    energy_level := "medium"
    confidence := 0.5
    mood_factors :=
      { brightness_influence := 0.5
        saturation_influence := 0.5
        complexity_influence := 0.5
        temperature_influence := "neutral" } }

/-- `AdvancedImageClassifier._calculate_display_duration`
(`complexity_data` always carries the `overall_complexity` key, so the
`.get` default 0.5 never fires). -/
def calculate_display_duration (complexity_data : ComplexityProfile) : ℚ :=
  let base_duration : ℚ := 8.0
  let complexity := complexity_data.overall_complexity
  pround 1 (base_duration + complexity * 4.0)

/-- `AdvancedImageClassifier._calculate_cinematic_score`. -/
def calculate_cinematic_score (color_data : ColorProfile)
    (mood_data : MoodProfile) : ℚ :=
  let temp_factor : ℚ :=
    if color_data.temperature = "cool" ∨ color_data.temperature = "warm"
      then 0.7 else 0.5
  let brightness_score := 1.0 - |color_data.brightness - 0.4|
  let mood_factor : ℚ :=
    if mood_data.primary_mood ∈
        ["dramatic", "mysterious", "cinematic", "contemplative"]
      then 0.8 else 0.4
  pround 3 ((temp_factor + brightness_score + mood_factor) / 3)

/-- The `basic_info` sub-dict of a classification. -/
structure BasicInfo where
  filename : String
  width : ℕ
  height : ℕ
  aspect_ratio : ℚ
  format : String
  megapixels : ℚ
deriving DecidableEq, Repr

/-- The `classification_metadata` sub-dict of a classification. -/
structure ClassificationMetadata where
  analyzer_version : String
  confidence_score : ℚ
  processing_timestamp : String
  recommended_display_duration : ℚ
  cinematic_score : ℚ
deriving DecidableEq, Repr

/-- The dict returned by `AdvancedImageClassifier.classify_image`. -/
structure ImageClassification where
  basic_info : BasicInfo
  color_analysis : ColorProfile
  complexity_analysis : ComplexityProfile
  mood_analysis : MoodProfile
  classification_metadata : ClassificationMetadata
deriving DecidableEq, Repr

/-- The success path of `AdvancedImageClassifier.classify_image`,
assembling the classification record from the image's basic geometry,
the colour and complexity analyses (inputs of the model, since they
come from pixel data) and the injected timestamp. -/
def build_classification (filename : String) (width height : ℕ)
    (format_type timestamp : String) (color_data : ColorProfile)
    (complexity_data : ComplexityProfile) : ImageClassification :=
  let mood_data := analyze_mood color_data complexity_data
  { basic_info :=
      { filename := filename
        width := width
        height := height
        aspect_ratio := pround 3 ((width : ℚ) / (height : ℚ))
        format := format_type
        megapixels := pround 2 ((width * height : ℚ) / 1000000) }
    color_analysis := color_data
    complexity_analysis := complexity_data
    mood_analysis := mood_data
    classification_metadata :=
      { analyzer_version := "2.0.0"
        confidence_score := mood_data.confidence
        processing_timestamp := timestamp
        recommended_display_duration := calculate_display_duration complexity_data
        cinematic_score := calculate_cinematic_score color_data mood_data } }

/-- `AdvancedImageClassifier._get_fallback_classification`. -/
def get_fallback_classification (filename timestamp : String) :
    ImageClassification :=
  { basic_info :=
      { filename := filename
        width := 1920
        height := 1080
        aspect_ratio := 1.778
        format := "Unknown"
        megapixels := 2.07 }
    color_analysis := get_fallback_colors
    complexity_analysis := get_fallback_complexity
    mood_analysis := get_fallback_mood
    classification_metadata :=
      { analyzer_version := "2.0.0"
        confidence_score := 0.3
        processing_timestamp := timestamp
        recommended_display_duration := 8.0
        cinematic_score := 0.5 } }

/-! ## CollectionAnalyzer (src/api/content_theme_analyzer.py) -/

/-- `statistics.mean`. -/
def listMean (l : List ℚ) : ℚ := l.sum / l.length

/-- `statistics.variance` (sample variance, denominator n − 1). -/
def listSampleVariance (l : List ℚ) : ℚ :=
  let m := listMean l
  (l.map (fun x => (x - m) ^ 2)).sum / ((l.length : ℚ) - 1)

/-- The (key, count) pairs of `collections.Counter(l)` in
first-encounter key order. -/
def counterPairs (l : List String) : List (String × ℕ) :=
  (uniqueFirst l).map (fun k => (k, l.count k))

/-- `Counter(l).most_common(n)`: sort by count descending (stable, so
ties stay in first-encounter order) and take the first `n`. -/
def most_common (n : ℕ) (l : List String) : List (String × ℕ) :=
  ((counterPairs l).mergeSort (fun a b => b.2 ≤ a.2)).take n

/-- The `color_analysis` sub-dict of a persisted metadata record; every
key may be missing. -/
structure ColorAnalysisRec where
  dominant_color : Option String
  palette : Option (List String)
  temperature : Option String
  harmony_type : Option String
  brightness : Option ℚ
  saturation : Option ℚ
deriving DecidableEq, Repr

/-- The `mood_analysis` sub-dict of a persisted metadata record. -/
structure MoodAnalysisRec where
  primary_mood : Option String
  emotional_tone : Option String
  energy_level : Option String
deriving DecidableEq, Repr

/-- The `complexity_analysis` sub-dict of a persisted metadata
record. -/
structure ComplexityAnalysisRec where
  overall_complexity : Option ℚ
deriving DecidableEq, Repr

/-- One loaded metadata JSON file, as consumed by
`CollectionAnalyzer`; the three top-level keys may each be missing
(`metadata.get(..., {})`). -/
structure MetadataRecord where
  color_analysis : Option ColorAnalysisRec
  mood_analysis : Option MoodAnalysisRec
  complexity_analysis : Option ComplexityAnalysisRec
deriving DecidableEq, Repr

/-- `metadata.get("color_analysis", {})`. -/
def colorRec (r : MetadataRecord) : ColorAnalysisRec :=
  r.color_analysis.getD ⟨none, none, none, none, none, none⟩

/-- `metadata.get("mood_analysis", {})`. -/
def moodRec (r : MetadataRecord) : MoodAnalysisRec :=
  r.mood_analysis.getD ⟨none, none, none⟩

/-- `metadata.get("complexity_analysis", {})`. -/
def complexityRec (r : MetadataRecord) : ComplexityAnalysisRec :=
  r.complexity_analysis.getD ⟨none⟩

/-- The dict returned by `CollectionAnalyzer._aggregate_color_data`. -/
structure ColorData where
  dominant_colors : List String
  temperature_bias : String
  harmony_types : List String
  avg_brightness : ℚ
  avg_saturation : ℚ
  color_diversity : ℚ
deriving DecidableEq, Repr

/-- The dict returned by `CollectionAnalyzer._aggregate_mood_data`. -/
structure MoodData where
  mood_distribution : List (String × ℚ)
  dominant_tone : String
  dominant_energy : String
deriving DecidableEq, Repr

/-- The dict returned by
`CollectionAnalyzer._aggregate_complexity_data`. -/
structure ComplexityData where
  avg_complexity : ℚ
  complexity_variance : ℚ
deriving DecidableEq, Repr

/-- `CollectionAnalyzer._aggregate_color_data`.  A missing or falsy
(`None` / empty-string) `dominant_color` is skipped by the
`if dominant:` truthiness test. -/
def aggregate_color_data (metadata_files : List MetadataRecord) : ColorData :=
  let all_colors := metadata_files.filterMap (fun r =>
    match (colorRec r).dominant_color with
    | some d => if d = "" then none else some d
    | none => none)
  let all_palettes := (metadata_files.map (fun r => (colorRec r).palette.getD [])).flatten
  let temperatures := metadata_files.map (fun r => (colorRec r).temperature.getD "neutral")
  let harmonies := metadata_files.map (fun r => (colorRec r).harmony_type.getD "balanced")
  let brightness_values := metadata_files.map (fun r => (colorRec r).brightness.getD 0.5)
  let saturation_values := metadata_files.map (fun r => (colorRec r).saturation.getD 0.5)
  { dominant_colors := (most_common 10 (all_colors ++ all_palettes)).map Prod.fst
    temperature_bias :=
      match most_common 1 temperatures with
      | p :: _ => p.1
      | [] => "neutral"
    harmony_types := (most_common 3 harmonies).map Prod.fst
    avg_brightness := if brightness_values = [] then 0.5 else listMean brightness_values
    avg_saturation := if saturation_values = [] then 0.5 else listMean saturation_values
    color_diversity := ((uniqueFirst all_palettes).length : ℚ) / (max all_palettes.length 1 : ℕ) }

/-- `CollectionAnalyzer._aggregate_mood_data`. -/
def aggregate_mood_data (metadata_files : List MetadataRecord) : MoodData :=
  let moods := metadata_files.map (fun r => (moodRec r).primary_mood.getD "balanced")
  let tones := metadata_files.map (fun r => (moodRec r).emotional_tone.getD "neutral")
  let energy_levels := metadata_files.map (fun r => (moodRec r).energy_level.getD "medium")
  { mood_distribution :=
      if moods = [] then [("balanced", 1)]
      else (counterPairs moods).map (fun p => (p.1, (p.2 : ℚ) / moods.length))
    dominant_tone :=
      match most_common 1 tones with
      | p :: _ => p.1
      | [] => "neutral"
    dominant_energy :=
      match most_common 1 energy_levels with
      | p :: _ => p.1
      | [] => "medium" }

/-- `CollectionAnalyzer._aggregate_complexity_data`. -/
def aggregate_complexity_data (metadata_files : List MetadataRecord) :
    ComplexityData :=
  let complexity_values :=
    metadata_files.map (fun r => (complexityRec r).overall_complexity.getD 0.5)
  if complexity_values = [] then
    { avg_complexity := 0.5, complexity_variance := 0 }
  else
    { avg_complexity := listMean complexity_values
      complexity_variance :=
        if complexity_values.length > 1 then listSampleVariance complexity_values
        else 0 }

/-- `CollectionAnalyzer._normalize_hex_colors`: lowercase, drop every
`#`, strip surrounding whitespace, keep only length-6 results.
(`Char.toLower` lowercases ASCII; the colour strings are ASCII hex.) -/
def normalize_hex_colors (colors : List String) : List String :=
  colors.filterMap (fun color =>
    let normalized := pyStrip ((color.toList.map Char.toLower).filter (fun c => c ≠ '#'))
    if normalized.length = 6 then some (String.mk normalized) else none)

/-- The three `int(color[i:i+2], 16)` parses of
`CollectionAnalyzer._colors_match`; any `ValueError` gives `none`. -/
def parse_rgb (s : String) : Option (ℤ × ℤ × ℤ) :=
  match s.toList with
  | [a, b, c, d, e, f] =>
    match parseHexPair a b, parseHexPair c d, parseHexPair e f with
    | some r, some g, some bl => some (r, g, bl)
    | _, _, _ => none
  | _ => none

/-- `CollectionAnalyzer._colors_match`: exact equality, or (for two
length-6 strings that parse) Euclidean RGB distance below 40 —
equivalently, squared distance below 1600. -/
def colors_match (color1 color2 : String) : Bool :=
  if color1 = color2 then true
  else if color1.length = 6 ∧ color2.length = 6 then
    match parse_rgb color1, parse_rgb color2 with
    | some (r1, g1, b1), some (r2, g2, b2) =>
      decide ((r1 - r2) ^ 2 + (g1 - g2) ^ 2 + (b1 - b2) ^ 2 < 1600)
    | _, _ => false
  else false

/-- `CollectionAnalyzer._match_color_indicators`. -/
def match_color_indicators (colors indicators : List String) : Bool :=
  colors.any (fun color => indicators.any (fun indicator => colors_match color indicator))

/-- The cyberfemme colour indicator set. -/
def cyberfemme_indicators : List String :=
  [ "ff00ff", "ff1493", "ff69b4", "da70d6", "c71585", "db7093"
  , "8a2be2", "9932cc", "8b008b", "4b0082", "6a0dad", "ba55d3", "9370db"
  , "7b68ee", "9966cc", "aa00ff", "8000ff"
  , "00ffff", "0000ff", "1e90ff", "00bfff", "4169e1", "0080ff"
  , "0066ff", "3366ff", "6600ff" ]

/-- `CollectionAnalyzer._has_cyberfemme_colors`. -/
def has_cyberfemme_colors (colors : List String) : Bool :=
  match_color_indicators (normalize_hex_colors colors) cyberfemme_indicators

/-- `" ".join(colors).lower()` as a character list. -/
def joined_lower (colors : List String) : List Char :=
  (String.intercalate " " colors).toList.map Char.toLower

/-- The earth-tone indicator set. -/
def earth_indicators : List String :=
  [ "8b4513", "a0522d", "cd853f", "daa520", "b8860b", "d2691e"
  , "f4a460", "deb887", "bc8f8f", "f5deb3", "2e8b57", "228b22"
  , "556b2f", "6b8e23", "808000", "8fbc8f" ]

/-- `CollectionAnalyzer._has_earth_tones` (substring containment on
the space-joined, lowercased colour list). -/
def has_earth_tones (colors : List String) : Bool :=
  earth_indicators.any (fun indicator => hasSub indicator.toList (joined_lower colors))

/-- The tech colour indicator set. -/
def tech_indicators : List String :=
  [ "000000", "ffffff", "808080", "c0c0c0", "696969", "2f4f4f"
  , "1a1a1a", "0080ff", "0066cc", "003366", "191970", "00008b" ]

/-- `CollectionAnalyzer._has_tech_colors`. -/
def has_tech_colors (colors : List String) : Bool :=
  tech_indicators.any (fun indicator => hasSub indicator.toList (joined_lower colors))

/-- The vintage colour indicator set. -/
def vintage_indicators : List String :=
  [ "b8860b", "cd853f", "daa520", "f5deb3", "ffe4b5", "ffdab9"
  , "8b4513", "a0522d", "d2691e", "ff6347", "dc143c", "b22222" ]

/-- `CollectionAnalyzer._has_vintage_colors`. -/
def has_vintage_colors (colors : List String) : Bool :=
  vintage_indicators.any (fun indicator => hasSub indicator.toList (joined_lower colors))

/-- `CollectionAnalyzer._calculate_cyberfemme_score`. -/
def calculate_cyberfemme_score (color_data : ColorData) (mood_data : MoodData) : ℚ :=
  (if has_cyberfemme_colors color_data.dominant_colors then 0.4 else 0) +
  (if color_data.avg_saturation > 0.6 then 0.2 else 0) +
  (if (mood_data.mood_distribution.map Prod.fst).any
      (fun mood => mood ∈ ["vibrant", "cinematic", "dramatic", "energetic"])
    then 0.3 else 0) +
  (if mood_data.dominant_energy = "high" then 0.1 else 0)

/-- `CollectionAnalyzer._calculate_organic_score`. -/
def calculate_organic_score (color_data : ColorData) (mood_data : MoodData) : ℚ :=
  (if has_earth_tones color_data.dominant_colors then 0.4 else 0) +
  (if color_data.temperature_bias = "warm" then 0.2 else 0) +
  (if (mood_data.mood_distribution.map Prod.fst).any
      (fun mood => mood ∈ ["peaceful", "serene", "balanced"])
    then 0.3 else 0) +
  (if mood_data.dominant_energy ∈ ["low", "medium"] then 0.1 else 0)

/-- `CollectionAnalyzer._calculate_tech_score`. -/
def calculate_tech_score (color_data : ColorData) (mood_data : MoodData)
    (complexity_data : ComplexityData) : ℚ :=
  (if has_tech_colors color_data.dominant_colors then 0.4 else 0) +
  (if color_data.temperature_bias = "cool" then 0.2 else 0) +
  (if (mood_data.mood_distribution.map Prod.fst).any
      (fun mood => mood ∈ ["dynamic", "dramatic", "cinematic"])
    then 0.2 else 0) +
  (if complexity_data.avg_complexity > 0.6 then 0.1 else 0) +
  (if color_data.avg_brightness < 0.4 ∨ color_data.avg_brightness > 0.8
    then 0.1 else 0)

/-- `CollectionAnalyzer._calculate_vintage_score`. -/
def calculate_vintage_score (color_data : ColorData) (mood_data : MoodData) : ℚ :=
  (if has_vintage_colors color_data.dominant_colors then 0.4 else 0) +
  (if color_data.temperature_bias = "warm" ∧ color_data.avg_saturation < 0.6
    then 0.3 else 0) +
  (if (mood_data.mood_distribution.map Prod.fst).any
      (fun mood => mood ∈ ["contemplative", "peaceful", "balanced"])
    then 0.2 else 0) +
  (if 0.3 < color_data.avg_brightness ∧ color_data.avg_brightness < 0.7
    then 0.1 else 0)

/-- Python `max(iterable, key=...)`: the first element attaining the
maximum key (later elements replace the current best only when
strictly greater). -/
def pyMaxBy (first : String × ℚ) (rest : List (String × ℚ)) : String × ℚ :=
  rest.foldl (fun acc p => if acc.2 < p.2 then p else acc) first

/-- The `theme_scores` dict of
`CollectionAnalyzer._detect_theme_pattern`, in insertion order. -/
def theme_scores (color_data : ColorData) (mood_data : MoodData)
    (complexity_data : ComplexityData) : List (String × ℚ) :=
  [ ("cyberfemme", calculate_cyberfemme_score color_data mood_data)
  , ("organic", calculate_organic_score color_data mood_data)
  , ("tech", calculate_tech_score color_data mood_data complexity_data)
  , ("vintage", calculate_vintage_score color_data mood_data) ]

/-- `max(theme_scores.values())`. -/
def max_theme_score (color_data : ColorData) (mood_data : MoodData)
    (complexity_data : ComplexityData) : ℚ :=
  max (max (calculate_cyberfemme_score color_data mood_data)
           (calculate_organic_score color_data mood_data))
      (max (calculate_tech_score color_data mood_data complexity_data)
           (calculate_vintage_score color_data mood_data))

/-- The score of a given theme name, for stating which theme wins. -/
def theme_score (color_data : ColorData) (mood_data : MoodData)
    (complexity_data : ComplexityData) (name : String) : ℚ :=
  if name = "cyberfemme" then calculate_cyberfemme_score color_data mood_data
  else if name = "organic" then calculate_organic_score color_data mood_data
  else if name = "tech" then calculate_tech_score color_data mood_data complexity_data
  else calculate_vintage_score color_data mood_data

/-- `CollectionAnalyzer._detect_theme_pattern`.  The `theme_scores`
dict literal is nonempty, so `if not theme_scores` never fires. -/
def detect_theme_pattern (color_data : ColorData) (mood_data : MoodData)
    (complexity_data : ComplexityData) : String × ℚ :=
  let cyberfemme := calculate_cyberfemme_score color_data mood_data
  let organic := calculate_organic_score color_data mood_data
  let tech := calculate_tech_score color_data mood_data complexity_data
  let vintage := calculate_vintage_score color_data mood_data
  if max (max cyberfemme organic) (max tech vintage) < 0.3 then
    ("adaptive", 0.5)
  else
    let best := pyMaxBy ("cyberfemme", cyberfemme)
      [("organic", organic), ("tech", tech), ("vintage", vintage)]
    (best.1, min best.2 0.95)

/-- `CollectionAnalyzer._generate_accent_colors`. -/
def generate_accent_colors (theme_name : String) (color_data : ColorData) :
    List String :=
  if theme_name = "cyberfemme" then ["#ff00ff", "#00ffff", "#ff1493", "#9370db"]
  else if theme_name = "organic" then ["#8fbc8f", "#daa520", "#f4a460", "#90ee90"]
  else if theme_name = "tech" then ["#0080ff", "#00bfff", "#ffffff", "#c0c0c0"]
  else if theme_name = "vintage" then ["#daa520", "#cd853f", "#f5deb3", "#ffe4b5"]
  else
    if color_data.dominant_colors.length > 4 then
      (color_data.dominant_colors.drop 4).take 4
    else ["#ffffff"]

/-- `CollectionAnalyzer._generate_color_palettes`. -/
def generate_color_palettes (color_data : ColorData) (theme_name : String) :
    List String × List String :=
  if color_data.dominant_colors = [] then
    if theme_name = "cyberfemme" then
      (["#1a1a2e", "#16213e", "#0f3460"], ["#ff00ff", "#00ffff", "#ff1493", "#9932cc"])
    else if theme_name = "organic" then
      (["#2e4a3d", "#4a6741", "#6b8e23"], ["#8fbc8f", "#daa520", "#cd853f"])
    else if theme_name = "tech" then
      (["#1a1a1a", "#2f2f2f", "#404040"], ["#0080ff", "#00bfff", "#ffffff"])
    else
      (["#3d2f1f", "#5d4037", "#795548"], ["#daa520", "#cd853f", "#b8860b"])
  else
    (color_data.dominant_colors.take 4, generate_accent_colors theme_name color_data)

/-- `ThemeProfile` dataclass. -/
structure ThemeProfile where
  theme_name : String
  confidence : ℚ
  primary_colors : List String
  accent_colors : List String
  temperature_bias : String
  mood_profile : List (String × ℚ)
  energy_level : String
  complexity_preference : ℚ
  harmony_types : List String
deriving DecidableEq, Repr

/-- `CollectionAnalyzer._generate_theme_profile`. -/
def generate_theme_profile (color_data : ColorData) (mood_data : MoodData)
    (complexity_data : ComplexityData) : ThemeProfile :=
  let tc := detect_theme_pattern color_data mood_data complexity_data
  let palettes := generate_color_palettes color_data tc.1
  { theme_name := tc.1
    confidence := tc.2
    primary_colors := palettes.1
    accent_colors := palettes.2
    temperature_bias := color_data.temperature_bias
    mood_profile := mood_data.mood_distribution
    energy_level := mood_data.dominant_energy
    complexity_preference := complexity_data.avg_complexity
    harmony_types := color_data.harmony_types }

/-- `CollectionAnalyzer._get_fallback_theme`. -/
def get_fallback_theme : ThemeProfile :=
  { theme_name := "adaptive"
    confidence := 0.5
    primary_colors := ["#1a1a2e", "#16213e", "#0f3460"]
    accent_colors := ["#ffffff", "#c0c0c0", "#808080"]
    temperature_bias := "neutral"
    mood_profile := [("balanced", 1)]
    energy_level := "medium"
    complexity_preference := 0.5
    harmony_types := ["balanced"] }

/-- `CollectionAnalyzer.analyze_collection_theme`, as a function of the
metadata records `_load_metadata_files` managed to load (a missing
directory or unparseable files simply yield fewer records; file I/O
itself is outside the model). -/
def analyze_collection_theme (metadata_files : List MetadataRecord) :
    ThemeProfile :=
  if metadata_files = [] then get_fallback_theme
  else
    generate_theme_profile
      (aggregate_color_data metadata_files)
      (aggregate_mood_data metadata_files)
      (aggregate_complexity_data metadata_files)

/-- The aspect-category table exactly as the specification claim
states it: square with tolerance 0.8 when 0.9 ≤ ratio ≤ 1.1, vertical
with 0.3 when ratio < 0.6, portrait with 0.5 when 0.6 ≤ ratio < 0.9,
panoramic with 0.4 when ratio > 1.8, landscape with 0.6 otherwise.
Used to compare the claim's table against `categorize_aspect`. -/
def aspect_table_spec (ratio : ℚ) : AspectCategory × ℚ :=
  if 0.9 ≤ ratio ∧ ratio ≤ 1.1 then (.square, 0.8)
  else if ratio < 0.6 then (.vertical, 0.3)
  else if 0.6 ≤ ratio ∧ ratio < 0.9 then (.portrait, 0.5)
  else if ratio > 1.8 then (.panoramic, 0.4)
  else (.landscape, 0.6)

/-! ## Helper lemmas -/

lemma int_le_round {x : ℚ} {n : ℤ} (h : (n : ℚ) ≤ x) : n ≤ round x := by
  rw [round_eq]
  exact Int.le_floor.mpr (by linarith)

lemma round_le_int {x : ℚ} {n : ℤ} (h : x ≤ (n : ℚ)) : round x ≤ n := by
  rw [round_eq]
  calc ⌊x + 1 / 2⌋ ≤ ⌊(n : ℚ) + 1 / 2⌋ := Int.floor_mono (by linarith)
  _ = n + ⌊(1 : ℚ) / 2⌋ := Int.floor_int_add n (1 / 2)
  _ = n := by norm_num

lemma pround_nonneg (p : ℕ) {x : ℚ} (h : 0 ≤ x) : 0 ≤ pround p x := by
  unfold pround
  have h10 : (0 : ℚ) < 10 ^ p := by positivity
  apply div_nonneg _ (le_of_lt h10)
  have : (0 : ℤ) ≤ round (x * 10 ^ p) :=
    int_le_round (by push_cast; positivity)
  exact_mod_cast this

lemma pround_le_one (p : ℕ) {x : ℚ} (h : x ≤ 1) : pround p x ≤ 1 := by
  unfold pround
  have h10 : (0 : ℚ) < 10 ^ p := by positivity
  rw [div_le_one h10]
  have : round (x * 10 ^ p) ≤ ((10 : ℤ) ^ p) := by
    apply round_le_int
    push_cast
    nlinarith
  calc (round (x * 10 ^ p) : ℚ) ≤ ((10 : ℤ) ^ p : ℚ) := by exact_mod_cast this
  _ = 10 ^ p := by push_cast; ring

lemma abs_pround_sub_le (p : ℕ) (x : ℚ) :
    |pround p x - x| ≤ 1 / (2 * 10 ^ p) := by
  unfold pround
  have h10 : (0 : ℚ) < 10 ^ p := by positivity
  have h := abs_sub_round (x * 10 ^ p)
  rw [abs_sub_comm] at h
  have heq : (round (x * 10 ^ p) : ℚ) / 10 ^ p - x =
      ((round (x * 10 ^ p) : ℚ) - x * 10 ^ p) / 10 ^ p := by
    field_simp
    ring
  rw [heq, abs_div, abs_of_pos h10]
  rw [div_le_div_iff₀ h10 (by positivity)]
  calc |(round (x * 10 ^ p) : ℚ) - x * 10 ^ p| * (2 * 10 ^ p)
      ≤ (1 / 2) * (2 * 10 ^ p) := by
        apply mul_le_mul_of_nonneg_right h (by positivity)
  _ = 1 * 10 ^ p := by ring

lemma pyGet_nonneg {dist : List (String × ℚ)} (hpos : ∀ p ∈ dist, 0 ≤ p.2)
    (k : String) : 0 ≤ pyGet dist k 0 := by
  unfold pyGet
  cases hf : dist.find? (fun p => p.1 == k) with
  | none => exact le_refl 0
  | some p => exact hpos p (List.mem_of_find?_eq_some hf)

/-! ## C2 -/

/-- C2: the primary-mood classifier realises exactly the six-rule
decision table stated by the specification, rules evaluated in order
with the first match winning; in particular brightness 0, saturation 0,
warm temperature and complexity 0.5 give "mysterious". -/
theorem mood_decision_table :
    (∀ (brightness saturation complexity : ℚ) (temperature : String),
      determine_primary_mood brightness saturation temperature complexity =
        mood_table_spec brightness saturation temperature complexity) ∧
    determine_primary_mood 0 0 "warm" 0.5 = "mysterious" := by
  constructor
  · intro brightness saturation complexity temperature
    rfl
  · norm_num [determine_primary_mood]

/-! ## C9 -/

/-- C9: with zero usable metadata records the theme aggregator returns
the fixed fallback `ThemeProfile`, whose name is "adaptive" and whose
confidence is 0.5 (the scorer pipeline in the non-empty branch is never
reached). -/
theorem empty_collection_fallback :
    analyze_collection_theme [] = get_fallback_theme ∧
    (analyze_collection_theme []).theme_name = "adaptive" ∧
    (analyze_collection_theme []).confidence = 0.5 :=
  ⟨rfl, rfl, rfl⟩

/-! ## C8 -/

/-- C8: `optimize_layout` with a pattern name outside the fixed
catalogue returns the explicit error-shaped "pattern not found"
result, with no layout and hence no assignment produced. -/
theorem optimize_layout_unknown_pattern (pattern_name : String)
    (image_metadatas : List ImageMeta)
    (h : pattern_name ∉
      ["portrait_showcase", "landscape_gallery", "balanced_mix", "grid_harmony"]) :
    optimize_layout pattern_name image_metadatas =
      .error ("Pattern \x27" ++ pattern_name ++ "\x27 not found") := by
  simp only [List.mem_cons, List.not_mem_nil, or_false, not_or] at h
  obtain ⟨h1, h2, h3, h4⟩ := h
  have e1 : ("portrait_showcase" == pattern_name) = false :=
    beq_eq_false_iff_ne.mpr (Ne.symm h1)
  have e2 : ("landscape_gallery" == pattern_name) = false :=
    beq_eq_false_iff_ne.mpr (Ne.symm h2)
  have e3 : ("balanced_mix" == pattern_name) = false :=
    beq_eq_false_iff_ne.mpr (Ne.symm h3)
  have e4 : ("grid_harmony" == pattern_name) = false :=
    beq_eq_false_iff_ne.mpr (Ne.symm h4)
  unfold optimize_layout
  rw [show create_bento_patterns.find? (fun p => p.name == pattern_name) = none by
    simp [create_bento_patterns, List.find?, e1, e2, e3, e4]]

/-- Witness for C8 at the concrete unknown pattern name
"mosaic_flow". -/
theorem optimize_layout_unknown_pattern_witness :
    ("mosaic_flow" : String) ∉
      ["portrait_showcase", "landscape_gallery", "balanced_mix", "grid_harmony"] ∧
    optimize_layout "mosaic_flow" [] =
      .error ("Pattern \x27" ++ "mosaic_flow" ++ "\x27 not found") :=
  ⟨by decide, optimize_layout_unknown_pattern "mosaic_flow" [] (by decide)⟩

/-! ## C6 -/

lemma categorize_aspect_eq_spec (ratio : ℚ) :
    categorize_aspect ratio = aspect_table_spec ratio := by
  unfold categorize_aspect aspect_table_spec
  by_cases h1 : 0.9 ≤ ratio ∧ ratio ≤ 1.1
  · simp [h1]
  · by_cases h2 : ratio < 0.6
    · simp [h1, h2]
    · by_cases h3 : ratio < 0.9
      · have h6 : (0.6 : ℚ) ≤ ratio := le_of_not_lt h2
        simp [h1, h2, h3, h6]
      · simp [h1, h2, h3, fun (h : (0.6 : ℚ) ≤ ratio ∧ ratio < 0.9) => h3 h.2]

/-- C6: for positive width and height, `analyze_image` assigns exactly
the aspect category and crop tolerance given by the claim's threshold
table on ratio = width/height; the five scenario ratios 0.5, 0.95,
1.6, 2.5, 1.0 map to vertical/square/landscape/panoramic/square with
tolerances 0.3, 0.8, 0.6, 0.4, 0.8. -/
theorem aspect_classification (w h : ℚ) (hw : 0 < w) (hh : 0 < h) :
    ((analyze_image ⟨some "img", some (.num w), some (.num h)⟩).category,
      (analyze_image ⟨some "img", some (.num w), some (.num h)⟩).crop_tolerance) =
        aspect_table_spec (w / h) ∧
    (analyze_image ⟨some "img", some (.num w), some (.num h)⟩).aspect_ratio = w / h ∧
    ([⟨some "a", some (.num 1), some (.num 2)⟩,
      ⟨some "b", some (.num 19), some (.num 20)⟩,
      ⟨some "c", some (.num 8), some (.num 5)⟩,
      ⟨some "d", some (.num 5), some (.num 2)⟩,
      ⟨some "e", some (.num 1), some (.num 1)⟩] : List ImageMeta).map
        (fun m => ((analyze_image m).category, (analyze_image m).crop_tolerance)) =
      [(.vertical, 0.3), (.square, 0.8), (.landscape, 0.6),
        (.panoramic, 0.4), (.square, 0.8)] := by
  have hne : h ≠ 0 := ne_of_gt hh
  refine ⟨?_, ?_, ?_⟩
  · simp only [analyze_image, Option.getD_some, if_neg hne]
    rw [← categorize_aspect_eq_spec]
  · simp only [analyze_image, Option.getD_some, if_neg hne]
  · norm_num [analyze_image, categorize_aspect]

/-- Witness for C6 at width 19, height 20 (ratio 0.95). -/
theorem aspect_classification_witness :
    ((0 : ℚ) < 19 ∧ (0 : ℚ) < 20) ∧
    (((analyze_image ⟨some "img", some (.num 19), some (.num 20)⟩).category,
      (analyze_image ⟨some "img", some (.num 19), some (.num 20)⟩).crop_tolerance) =
        aspect_table_spec (19 / 20) ∧
    (analyze_image ⟨some "img", some (.num 19), some (.num 20)⟩).aspect_ratio = 19 / 20 ∧
    ([⟨some "a", some (.num 1), some (.num 2)⟩,
      ⟨some "b", some (.num 19), some (.num 20)⟩,
      ⟨some "c", some (.num 8), some (.num 5)⟩,
      ⟨some "d", some (.num 5), some (.num 2)⟩,
      ⟨some "e", some (.num 1), some (.num 1)⟩] : List ImageMeta).map
        (fun m => ((analyze_image m).category, (analyze_image m).crop_tolerance)) =
      [(.vertical, 0.3), (.square, 0.8), (.landscape, 0.6),
        (.panoramic, 0.4), (.square, 0.8)]) :=
  ⟨⟨by norm_num, by norm_num⟩,
    aspect_classification 19 20 (by norm_num) (by norm_num)⟩

/-! ## C10 -/

/-- C10: `analyze_image` is total over arbitrary metadata records —
a zero height or a non-numeric width/height yields the default
analysis (width 1, height 1, ratio 1.0, square, tolerance 0.8), and
records with both keys missing produce the same values through the
defaults. -/
theorem analyze_image_total_defaults (m : ImageMeta) :
    (m.height.getD (.num 1) = .num 0 →
      analyze_image m = default_image_analysis m) ∧
    ((∀ q, m.width.getD (.num 1) ≠ .num q) ∨
      (∀ q, m.height.getD (.num 1) ≠ .num q) →
      analyze_image m = default_image_analysis m) ∧
    (m.width = none → m.height = none →
      analyze_image m = default_image_analysis m) ∧
    default_image_analysis m =
      { filename := m.filename.getD "", width := 1, height := 1,
        aspect_ratio := 1, category := .square, crop_tolerance := 0.8 } := by
  refine ⟨?_, ?_, ?_, rfl⟩
  · intro hz
    unfold analyze_image
    rcases hw : m.width.getD (.num 1) with q | s <;> rw [hz] <;> simp
  · intro hne
    unfold analyze_image
    rcases hw : m.width.getD (.num 1) with qw | sw <;>
      rcases hh : m.height.getD (.num 1) with qh | sh <;> try rfl
    rcases hne with hne | hne
    · exact absurd hw (hne qw)
    · exact absurd hh (hne qh)
  · intro hw hh
    unfold analyze_image
    rw [hw, hh]
    simp only [Option.getD_none]
    rw [if_neg (by norm_num : (1 : ℚ) ≠ 0)]
    simp [default_image_analysis, categorize_aspect]
    norm_num

/-- Witness for C10 at a record with height 0 and at one with a
string-valued width. -/
theorem analyze_image_total_defaults_witness :
    ((⟨some "z.png", some (.num 3), some (.num 0)⟩ : ImageMeta).height.getD (.num 1) =
      .num 0 ∧
      analyze_image ⟨some "z.png", some (.num 3), some (.num 0)⟩ =
        default_image_analysis ⟨some "z.png", some (.num 3), some (.num 0)⟩) ∧
    ((∀ q, (⟨some "w.png", some (.str "wide"), some (.num 4)⟩ : ImageMeta).width.getD
        (.num 1) ≠ .num q) ∧
      analyze_image ⟨some "w.png", some (.str "wide"), some (.num 4)⟩ =
        default_image_analysis ⟨some "w.png", some (.str "wide"), some (.num 4)⟩) :=
  ⟨⟨rfl, (analyze_image_total_defaults _).1 rfl⟩,
    ⟨fun q => by simp, (analyze_image_total_defaults _).2.1 (Or.inl (fun q => by simp))⟩⟩

/-! ## C5 -/

/-- C5 counterexample: the fallback classification's
`recommended_display_duration` is the hardcoded 8.0, while its own
complexity profile has `overall_complexity` 0.45, for which the claimed
formula 8.0 + overall_complexity × 4.0 gives 9.8 ≠ 8.0. -/
theorem display_duration_fallback_counterexample :
    (get_fallback_classification "img.png"
        "2026-01-01T00:00:00").classification_metadata.recommended_display_duration =
      8 ∧
    (get_fallback_classification "img.png"
        "2026-01-01T00:00:00").complexity_analysis.overall_complexity = 0.45 ∧
    8 + (get_fallback_classification "img.png"
        "2026-01-01T00:00:00").complexity_analysis.overall_complexity * 4 = 9.8 ∧
    (8 : ℚ) ≠ 9.8 := by
  refine ⟨by norm_num [get_fallback_classification], rfl, ?_, by norm_num⟩
  norm_num [get_fallback_classification, get_fallback_complexity]

/-- C5 amended: on the success path the recommended display duration
equals 8.0 + overall_complexity × 4.0 (rounded to one decimal place),
with the complexity taken from the classification's own profile; on
the fallback path the duration is the hardcoded constant 8.0, not the
formula value 9.8 of the fallback complexity 0.45. -/
theorem display_duration_amended (filename : String) (width height : ℕ)
    (format_type timestamp : String) (color_data : ColorProfile)
    (complexity_data : ComplexityProfile) :
    (build_classification filename width height format_type timestamp
        color_data complexity_data).classification_metadata.recommended_display_duration =
      pround 1 (8 + (build_classification filename width height format_type timestamp
        color_data complexity_data).complexity_analysis.overall_complexity * 4) ∧
    (∀ fn ts : String,
      (get_fallback_classification fn
        ts).classification_metadata.recommended_display_duration = 8) := by
  constructor
  · norm_num [build_classification, calculate_display_duration]
  · intro fn ts
    norm_num [get_fallback_classification]

/-! ## C3 -/

/-- C3 counterexample: the fixed fallback complexity profile violates
the claimed weighted-sum invariant — its `overall_complexity` is 0.45
while 0.3×edge + 0.3×texture + 0.2×color + 0.2×contrast over its own
fields is 0.44, a gap of 0.01, far beyond rounding. -/
theorem complexity_fallback_counterexample :
    get_fallback_complexity.overall_complexity = 0.45 ∧
    0.3 * get_fallback_complexity.edge_density +
      0.3 * get_fallback_complexity.texture_complexity +
      0.2 * get_fallback_complexity.color_complexity +
      0.2 * get_fallback_complexity.contrast = 0.44 ∧
    get_fallback_complexity.overall_complexity -
      (0.3 * get_fallback_complexity.edge_density +
        0.3 * get_fallback_complexity.texture_complexity +
        0.2 * get_fallback_complexity.color_complexity +
        0.2 * get_fallback_complexity.contrast) = 0.01 := by
  refine ⟨rfl, ?_, ?_⟩ <;> norm_num [get_fallback_complexity]

/-- C3 amended: on the success path every field of the returned
complexity profile lies in [0, 1] and `overall_complexity` equals the
0.3/0.3/0.2/0.2 weighted sum of the other four fields up to the
3-decimal rounding (within 1/1000); the fallback profile's fields also
lie in [0, 1], but its `overall_complexity` misses the weighted sum of
its own fields by exactly 0.01. -/
theorem complexity_profile_amended (s : ImageStats)
    (htot : 0 < s.total_pixels) (hedge : s.edge_pixels ≤ s.total_pixels)
    (hvar : ∀ v ∈ s.laplacian_variance, 0 ≤ v) (hstd : 0 ≤ s.gray_std) :
    (0 ≤ (analyze_complexity s).edge_density ∧
      (analyze_complexity s).edge_density ≤ 1) ∧
    (0 ≤ (analyze_complexity s).texture_complexity ∧
      (analyze_complexity s).texture_complexity ≤ 1) ∧
    (0 ≤ (analyze_complexity s).color_complexity ∧
      (analyze_complexity s).color_complexity ≤ 1) ∧
    (0 ≤ (analyze_complexity s).contrast ∧ (analyze_complexity s).contrast ≤ 1) ∧
    (0 ≤ (analyze_complexity s).overall_complexity ∧
      (analyze_complexity s).overall_complexity ≤ 1) ∧
    |(analyze_complexity s).overall_complexity -
      (0.3 * (analyze_complexity s).edge_density +
        0.3 * (analyze_complexity s).texture_complexity +
        0.2 * (analyze_complexity s).color_complexity +
        0.2 * (analyze_complexity s).contrast)| ≤ 1 / 1000 := by
  have htotQ : (0 : ℚ) < s.total_pixels := by exact_mod_cast htot
  have he0 : 0 ≤ calculate_edge_density s := by
    unfold calculate_edge_density
    positivity
  have he1 : calculate_edge_density s ≤ 1 := by
    unfold calculate_edge_density
    rw [div_le_one htotQ]
    exact_mod_cast hedge
  have ht0 : 0 ≤ calculate_texture_complexity s := by
    unfold calculate_texture_complexity
    cases hv : s.laplacian_variance with
    | none => norm_num
    | some v =>
      have := hvar v (by rw [hv]; exact rfl)
      exact le_min (by positivity) (by norm_num)
  have ht1 : calculate_texture_complexity s ≤ 1 := by
    unfold calculate_texture_complexity
    cases s.laplacian_variance with
    | none => norm_num
    | some v => exact min_le_right _ _
  have hc0 : 0 ≤ calculate_color_complexity s := by
    unfold calculate_color_complexity
    exact le_min (by positivity) (by norm_num)
  have hc1 : calculate_color_complexity s ≤ 1 := min_le_right _ _
  have hk0 : 0 ≤ calculate_contrast s := by
    unfold calculate_contrast
    exact le_min (by positivity) (by norm_num)
  have hk1 : calculate_contrast s ≤ 1 := min_le_right _ _
  have hov0 : 0 ≤ calculate_edge_density s * 0.3 +
      calculate_texture_complexity s * 0.3 +
      calculate_color_complexity s * 0.2 + calculate_contrast s * 0.2 := by
    nlinarith
  have hov1 : calculate_edge_density s * 0.3 +
      calculate_texture_complexity s * 0.3 +
      calculate_color_complexity s * 0.2 + calculate_contrast s * 0.2 ≤ 1 := by
    nlinarith
  have hre := abs_pround_sub_le 3 (calculate_edge_density s)
  have hrt := abs_pround_sub_le 3 (calculate_texture_complexity s)
  have hrc := abs_pround_sub_le 3 (calculate_color_complexity s)
  have hrk := abs_pround_sub_le 3 (calculate_contrast s)
  have hro := abs_pround_sub_le 3 (calculate_edge_density s * 0.3 +
      calculate_texture_complexity s * 0.3 +
      calculate_color_complexity s * 0.2 + calculate_contrast s * 0.2)
  obtain ⟨hre1, hre2⟩ := abs_le.mp hre
  obtain ⟨hrt1, hrt2⟩ := abs_le.mp hrt
  obtain ⟨hrc1, hrc2⟩ := abs_le.mp hrc
  obtain ⟨hrk1, hrk2⟩ := abs_le.mp hrk
  obtain ⟨hro1, hro2⟩ := abs_le.mp hro
  simp only [analyze_complexity]
  refine ⟨⟨pround_nonneg 3 he0, pround_le_one 3 he1⟩,
    ⟨pround_nonneg 3 ht0, pround_le_one 3 ht1⟩,
    ⟨pround_nonneg 3 hc0, pround_le_one 3 hc1⟩,
    ⟨pround_nonneg 3 hk0, pround_le_one 3 hk1⟩,
    ⟨pround_nonneg 3 hov0, pround_le_one 3 hov1⟩, ?_⟩
  rw [abs_le]
  constructor <;> nlinarith [hre1, hre2, hrt1, hrt2, hrc1, hrc2, hrk1, hrk2, hro1, hro2]

/-- Witness for C3 at concrete pixel statistics (50 of 100 edge
pixels, Laplacian variance 5000, 2500 unique colours, grayscale
standard deviation 64). -/
theorem complexity_profile_amended_witness :
    ((0 : ℕ) < 100 ∧ (50 : ℕ) ≤ 100 ∧
      (∀ v ∈ (some (5000 : ℚ) : Option ℚ), 0 ≤ v) ∧ (0 : ℚ) ≤ 64) ∧
    ((0 ≤ (analyze_complexity ⟨50, 100, some 5000, 2500, 64⟩).edge_density ∧
      (analyze_complexity ⟨50, 100, some 5000, 2500, 64⟩).edge_density ≤ 1) ∧
    (0 ≤ (analyze_complexity ⟨50, 100, some 5000, 2500, 64⟩).texture_complexity ∧
      (analyze_complexity ⟨50, 100, some 5000, 2500, 64⟩).texture_complexity ≤ 1) ∧
    (0 ≤ (analyze_complexity ⟨50, 100, some 5000, 2500, 64⟩).color_complexity ∧
      (analyze_complexity ⟨50, 100, some 5000, 2500, 64⟩).color_complexity ≤ 1) ∧
    (0 ≤ (analyze_complexity ⟨50, 100, some 5000, 2500, 64⟩).contrast ∧
      (analyze_complexity ⟨50, 100, some 5000, 2500, 64⟩).contrast ≤ 1) ∧
    (0 ≤ (analyze_complexity ⟨50, 100, some 5000, 2500, 64⟩).overall_complexity ∧
      (analyze_complexity ⟨50, 100, some 5000, 2500, 64⟩).overall_complexity ≤ 1) ∧
    |(analyze_complexity ⟨50, 100, some 5000, 2500, 64⟩).overall_complexity -
      (0.3 * (analyze_complexity ⟨50, 100, some 5000, 2500, 64⟩).edge_density +
        0.3 * (analyze_complexity ⟨50, 100, some 5000, 2500, 64⟩).texture_complexity +
        0.2 * (analyze_complexity ⟨50, 100, some 5000, 2500, 64⟩).color_complexity +
        0.2 * (analyze_complexity ⟨50, 100, some 5000, 2500, 64⟩).contrast)| ≤
      1 / 1000) :=
  ⟨⟨by norm_num, by norm_num, by simp, by norm_num⟩,
    complexity_profile_amended ⟨50, 100, some 5000, 2500, 64⟩
      (by norm_num) (by norm_num) (by simp) (by norm_num)⟩

/-! ## C1 -/

lemma pyMaxBy_mem (first : String × ℚ) (rest : List (String × ℚ)) :
    pyMaxBy first rest ∈ first :: rest := by
  induction rest generalizing first with
  | nil => simp [pyMaxBy]
  | cons p rest ih =>
    have hstep : pyMaxBy first (p :: rest) =
        pyMaxBy (if first.2 < p.2 then p else first) rest := rfl
    rw [hstep]
    by_cases h : first.2 < p.2
    · rw [if_pos h]
      exact List.mem_cons_of_mem first (ih p)
    · rw [if_neg h]
      rcases List.mem_cons.mp (ih first) with h1 | h1
      · rw [h1]
        exact List.mem_cons_self first (p :: rest)
      · exact List.mem_cons_of_mem first (List.mem_cons_of_mem p h1)

lemma pyMaxBy_le (first : String × ℚ) (rest : List (String × ℚ)) :
    ∀ q ∈ first :: rest, q.2 ≤ (pyMaxBy first rest).2 := by
  induction rest generalizing first with
  | nil =>
    intro q hq
    rcases List.mem_cons.mp hq with rfl | hq'
    · exact le_refl _
    · exact absurd hq' (List.not_mem_nil q)
  | cons p rest ih =>
    intro q hq
    have hstep : pyMaxBy first (p :: rest) =
        pyMaxBy (if first.2 < p.2 then p else first) rest := rfl
    rw [hstep]
    have hfb : first.2 ≤ (if first.2 < p.2 then p else first).2 := by
      by_cases h : first.2 < p.2
      · rw [if_pos h]; exact le_of_lt h
      · rw [if_neg h]
    have hpb : p.2 ≤ (if first.2 < p.2 then p else first).2 := by
      by_cases h : first.2 < p.2
      · rw [if_pos h]
      · rw [if_neg h]; exact le_of_not_lt h
    have hhead := ih (if first.2 < p.2 then p else first) _
      (List.mem_cons_self _ rest)
    rcases List.mem_cons.mp hq with rfl | hq'
    · exact le_trans hfb hhead
    · rcases List.mem_cons.mp hq' with rfl | hq''
      · exact le_trans hpb hhead
      · exact ih _ q (List.mem_cons_of_mem _ hq'')

lemma pyMaxBy_four (s1 s2 s3 s4 : ℚ) :
    (pyMaxBy ("cyberfemme", s1) [("organic", s2), ("tech", s3), ("vintage", s4)] =
        ("cyberfemme", s1) ∨
      pyMaxBy ("cyberfemme", s1) [("organic", s2), ("tech", s3), ("vintage", s4)] =
        ("organic", s2) ∨
      pyMaxBy ("cyberfemme", s1) [("organic", s2), ("tech", s3), ("vintage", s4)] =
        ("tech", s3) ∨
      pyMaxBy ("cyberfemme", s1) [("organic", s2), ("tech", s3), ("vintage", s4)] =
        ("vintage", s4)) ∧
    (pyMaxBy ("cyberfemme", s1) [("organic", s2), ("tech", s3), ("vintage", s4)]).2 =
      max (max s1 s2) (max s3 s4) := by
  have hmem := pyMaxBy_mem ("cyberfemme", s1) [("organic", s2), ("tech", s3), ("vintage", s4)]
  have hles := pyMaxBy_le ("cyberfemme", s1) [("organic", s2), ("tech", s3), ("vintage", s4)]
  simp only [List.mem_cons, List.not_mem_nil, or_false] at hmem
  refine ⟨hmem, le_antisymm ?_ ?_⟩
  · rcases hmem with h | h | h | h <;> rw [h]
    · exact le_max_of_le_left (le_max_left s1 s2)
    · exact le_max_of_le_left (le_max_right s1 s2)
    · exact le_max_of_le_right (le_max_left s3 s4)
    · exact le_max_of_le_right (le_max_right s3 s4)
  · apply max_le
    · exact max_le (hles ("cyberfemme", s1) (by simp)) (hles ("organic", s2) (by simp))
    · exact max_le (hles ("tech", s3) (by simp)) (hles ("vintage", s4) (by simp))

/-- C1: theme selection evaluates the four named scorers; when the
maximum score is below 0.3 the result is ("adaptive", 0.5), otherwise
a named theme attaining the maximum wins with confidence
min(score, 0.95), which consequently lies in [0.3, 0.95]. -/
theorem theme_selection_confidence (cd : ColorData) (md : MoodData)
    (xd : ComplexityData) :
    (max_theme_score cd md xd < 0.3 →
      detect_theme_pattern cd md xd = ("adaptive", 0.5)) ∧
    (0.3 ≤ max_theme_score cd md xd →
      (detect_theme_pattern cd md xd).1 ∈
        (["cyberfemme", "organic", "tech", "vintage"] : List String) ∧
      theme_score cd md xd (detect_theme_pattern cd md xd).1 =
        max_theme_score cd md xd ∧
      (detect_theme_pattern cd md xd).2 =
        min (max_theme_score cd md xd) 0.95 ∧
      0.3 ≤ (detect_theme_pattern cd md xd).2 ∧
      (detect_theme_pattern cd md xd).2 ≤ 0.95) := by
  have hd : detect_theme_pattern cd md xd =
      if max (max (calculate_cyberfemme_score cd md) (calculate_organic_score cd md))
          (max (calculate_tech_score cd md xd) (calculate_vintage_score cd md)) < 0.3
        then ("adaptive", 0.5)
        else
          ((pyMaxBy ("cyberfemme", calculate_cyberfemme_score cd md)
            [("organic", calculate_organic_score cd md),
             ("tech", calculate_tech_score cd md xd),
             ("vintage", calculate_vintage_score cd md)]).1,
           min (pyMaxBy ("cyberfemme", calculate_cyberfemme_score cd md)
            [("organic", calculate_organic_score cd md),
             ("tech", calculate_tech_score cd md xd),
             ("vintage", calculate_vintage_score cd md)]).2 0.95) := rfl
  have hM : max_theme_score cd md xd =
      max (max (calculate_cyberfemme_score cd md) (calculate_organic_score cd md))
        (max (calculate_tech_score cd md xd) (calculate_vintage_score cd md)) := rfl
  constructor
  · intro h
    rw [hd, if_pos (hM ▸ h)]
  · intro h
    have hnot : ¬ (max (max (calculate_cyberfemme_score cd md)
        (calculate_organic_score cd md))
        (max (calculate_tech_score cd md xd) (calculate_vintage_score cd md)) < 0.3) :=
      not_lt.mpr (hM ▸ h)
    rw [hd, if_neg hnot]
    obtain ⟨hcases, hbest2⟩ := pyMaxBy_four (calculate_cyberfemme_score cd md)
      (calculate_organic_score cd md) (calculate_tech_score cd md xd)
      (calculate_vintage_score cd md)
    have hconf1 : 0.3 ≤ min (max_theme_score cd md xd) 0.95 :=
      le_min h (by norm_num)
    have hconf2 : min (max_theme_score cd md xd) 0.95 ≤ 0.95 := min_le_right _ _
    rcases hcases with hb | hb | hb | hb <;>
      rw [hb] at hbest2 ⊢ <;>
      have hp2 := hbest2.trans hM.symm <;>
      refine ⟨by simp,
        by rw [← hp2]; simp +decide [theme_score],
        by rw [← hp2],
        by have hc := hconf1; rw [← hp2] at hc; exact hc,
        by have hc := hconf2; rw [← hp2] at hc; exact hc⟩

/-- Witness for C1 at a concrete magenta-dominated, vibrant,
high-energy collection profile (cyberfemme score 1.0, confidence
capped at 0.95). -/
theorem theme_selection_confidence_witness :
    (0.3 : ℚ) ≤ max_theme_score
      ⟨["ff00ff"], "neutral", ["balanced"], 0.5, 0.85, 0.5⟩
      ⟨[("vibrant", 1)], "neutral", "high"⟩ ⟨0.5, 0⟩ ∧
    ((detect_theme_pattern
        ⟨["ff00ff"], "neutral", ["balanced"], 0.5, 0.85, 0.5⟩
        ⟨[("vibrant", 1)], "neutral", "high"⟩ ⟨0.5, 0⟩).1 ∈
      (["cyberfemme", "organic", "tech", "vintage"] : List String) ∧
    theme_score ⟨["ff00ff"], "neutral", ["balanced"], 0.5, 0.85, 0.5⟩
        ⟨[("vibrant", 1)], "neutral", "high"⟩ ⟨0.5, 0⟩
        (detect_theme_pattern
          ⟨["ff00ff"], "neutral", ["balanced"], 0.5, 0.85, 0.5⟩
          ⟨[("vibrant", 1)], "neutral", "high"⟩ ⟨0.5, 0⟩).1 =
      max_theme_score ⟨["ff00ff"], "neutral", ["balanced"], 0.5, 0.85, 0.5⟩
        ⟨[("vibrant", 1)], "neutral", "high"⟩ ⟨0.5, 0⟩ ∧
    (detect_theme_pattern ⟨["ff00ff"], "neutral", ["balanced"], 0.5, 0.85, 0.5⟩
        ⟨[("vibrant", 1)], "neutral", "high"⟩ ⟨0.5, 0⟩).2 =
      min (max_theme_score ⟨["ff00ff"], "neutral", ["balanced"], 0.5, 0.85, 0.5⟩
        ⟨[("vibrant", 1)], "neutral", "high"⟩ ⟨0.5, 0⟩) 0.95 ∧
    0.3 ≤ (detect_theme_pattern
        ⟨["ff00ff"], "neutral", ["balanced"], 0.5, 0.85, 0.5⟩
        ⟨[("vibrant", 1)], "neutral", "high"⟩ ⟨0.5, 0⟩).2 ∧
    (detect_theme_pattern ⟨["ff00ff"], "neutral", ["balanced"], 0.5, 0.85, 0.5⟩
        ⟨[("vibrant", 1)], "neutral", "high"⟩ ⟨0.5, 0⟩).2 ≤ 0.95) := by
  have hscore : (0.3 : ℚ) ≤ max_theme_score
      ⟨["ff00ff"], "neutral", ["balanced"], 0.5, 0.85, 0.5⟩
      ⟨[("vibrant", 1)], "neutral", "high"⟩ ⟨0.5, 0⟩ := by
    norm_num +decide [max_theme_score, calculate_cyberfemme_score,
      calculate_organic_score, calculate_tech_score, calculate_vintage_score]
  exact ⟨hscore, (theme_selection_confidence _ _ _).2 hscore⟩

/-! ## C7 -/

lemma mem_dictInsert {α : Type} {l : List (String × α)} {k : String} {v : α}
    {p : String × α} (hp : p ∈ dictInsert l k v) : p = (k, v) ∨ p ∈ l := by
  induction l with
  | nil =>
    simp only [dictInsert, List.mem_singleton] at hp
    exact Or.inl hp
  | cons q rest ih =>
    obtain ⟨k0, v0⟩ := q
    simp only [dictInsert] at hp
    by_cases hk : k0 = k
    · rw [if_pos hk] at hp
      rcases List.mem_cons.mp hp with h | h
      · exact Or.inl h
      · exact Or.inr (List.mem_cons_of_mem _ h)
    · rw [if_neg hk] at hp
      rcases List.mem_cons.mp hp with h | h
      · exact Or.inr (h ▸ List.mem_cons_self _ _)
      · rcases ih h with h' | h'
        · exact Or.inl h'
        · exact Or.inr (List.mem_cons_of_mem _ h')

lemma dictInsert_map_nodup {α : Type} (f : α → String) (k : String) (v : α)
    {l : List (String × α)} (hn : (l.map (fun p => f p.2)).Nodup)
    (hv : f v ∉ l.map (fun p => f p.2)) :
    ((dictInsert l k v).map (fun p => f p.2)).Nodup := by
  induction l with
  | nil => simp [dictInsert]
  | cons q rest ih =>
    obtain ⟨k0, v0⟩ := q
    simp only [List.map_cons, List.nodup_cons] at hn
    have hvhead : ¬ f v = f v0 := fun he => hv (by
      rw [List.map_cons]
      exact he ▸ List.mem_cons_self _ _)
    have hvrest : f v ∉ rest.map (fun p => f p.2) := fun he => hv (by
      rw [List.map_cons]
      exact List.mem_cons_of_mem _ he)
    simp only [dictInsert]
    by_cases hk : k0 = k
    · rw [if_pos hk]
      simp only [List.map_cons, List.nodup_cons]
      exact ⟨hvrest, hn.2⟩
    · rw [if_neg hk]
      simp only [List.map_cons, List.nodup_cons]
      constructor
      · intro hin
        obtain ⟨p, hp, he⟩ := List.mem_map.mp hin
        rcases mem_dictInsert hp with h | h
        · rw [h] at he
          exact hvhead he
        · exact hn.1 (List.mem_map.mpr ⟨p, h, he⟩)
      · exact ih hn.2 hvrest

lemma dictInsert_length {α : Type} (l : List (String × α)) (k : String) (v : α) :
    (dictInsert l k v).length ≤ l.length + 1 := by
  induction l with
  | nil => simp [dictInsert]
  | cons q rest ih =>
    obtain ⟨k0, v0⟩ := q
    simp only [dictInsert]
    by_cases hk : k0 = k
    · rw [if_pos hk]
      simp
    · rw [if_neg hk]
      simp only [List.length_cons]
      omega

lemma find_best_image_mem {slot : TileSlot} {analyses : List ImageAnalysis}
    {used_images : List String} {im : ImageAnalysis}
    (h : find_best_image_for_slot slot analyses used_images = some im) :
    im ∈ analyses ∧ im.filename ∉ used_images := by
  simp only [find_best_image_for_slot] at h
  by_cases he : (analyses.filter (fun a => a.filename ∉ used_images)).isEmpty
  · rw [if_pos he] at h
    cases h
  · rw [if_neg he] at h
    rcases hms : (((analyses.filter (fun a => a.filename ∉ used_images)).map
        (fun image => (score_image_for_slot slot image, image))).mergeSort
        (fun x y => y.1 ≤ x.1)) with _ | ⟨best, tl⟩
    · rw [hms] at h
      cases h
    · rw [hms] at h
      have hb : best ∈ (((analyses.filter (fun a => a.filename ∉ used_images)).map
          (fun image => (score_image_for_slot slot image, image))).mergeSort
          (fun x y => y.1 ≤ x.1)) := by
        rw [hms]
        exact List.mem_cons_self _ _
      have hbm := (List.mergeSort_perm _ _).mem_iff.mp hb
      obtain ⟨a, ha, hae⟩ := List.mem_map.mp hbm
      have him : im = a := by
        have h2 : best.2 = im := Option.some.inj h
        rw [← h2, ← hae]
      subst him
      simpa using List.mem_filter.mp ha

lemma nodup_subset_length {l1 l2 : List String} (h1 : l1.Nodup)
    (hsub : ∀ x ∈ l1, x ∈ l2) : l1.length ≤ l2.length := by
  calc l1.length = l1.toFinset.card := (List.toFinset_card_of_nodup h1).symm
  _ ≤ l2.toFinset.card :=
    Finset.card_le_card (fun x hx =>
      List.mem_toFinset.mpr (hsub x (List.mem_toFinset.mp hx)))
  _ ≤ l2.length := List.toFinset_card_le l2

lemma assign_loop_inv (analyses : List ImageAnalysis) (slots : List TileSlot) :
    ∀ (assignments : List (String × SlotAssignment)) (used_images : List String),
    (assignments.map (fun p => p.2.filename)).Nodup →
    (∀ p ∈ assignments, p.2.filename ∈ used_images) →
    (∀ p ∈ assignments, p.2.filename ∈ analyses.map ImageAnalysis.filename) →
    ((assign_loop analyses slots (assignments, used_images)).1.map
        (fun p => p.2.filename)).Nodup ∧
    (∀ p ∈ (assign_loop analyses slots (assignments, used_images)).1,
        p.2.filename ∈ analyses.map ImageAnalysis.filename) ∧
    (assign_loop analyses slots (assignments, used_images)).1.length ≤
      assignments.length + slots.length := by
  induction slots with
  | nil =>
    intro assignments used_images h1 h2 h3
    exact ⟨h1, h3, by simp [assign_loop]⟩
  | cons slot rest ih =>
    intro assignments used_images h1 h2 h3
    rcases hfb : find_best_image_for_slot slot analyses used_images with _ | best
    · have hstep : assign_loop analyses (slot :: rest) (assignments, used_images) =
          assign_loop analyses rest (assignments, used_images) := by
        simp [assign_loop, hfb]
      rw [hstep]
      obtain ⟨ha, hb, hc⟩ := ih assignments used_images h1 h2 h3
      exact ⟨ha, hb, by simpa using hc.trans (by omega)⟩
    · obtain ⟨hmem, hnotused⟩ := find_best_image_mem hfb
      have hstep : assign_loop analyses (slot :: rest) (assignments, used_images) =
          assign_loop analyses rest
            (dictInsert assignments (slot_key slot)
              { filename := best.filename
                aspect_match := |best.aspect_ratio - slot.aspect_ratio|
                crop_impact := max 0 (1 - best.crop_tolerance) },
             best.filename :: used_images) := by
        simp [assign_loop, hfb]
      rw [hstep]
      have hfresh : best.filename ∉ assignments.map (fun p => p.2.filename) := by
        intro hin
        obtain ⟨p, hp, he⟩ := List.mem_map.mp hin
        exact hnotused (he ▸ h2 p hp)
      have h1' := dictInsert_map_nodup SlotAssignment.filename (slot_key slot)
        { filename := best.filename
          aspect_match := |best.aspect_ratio - slot.aspect_ratio|
          crop_impact := max 0 (1 - best.crop_tolerance) } h1 hfresh
      have h2' : ∀ p ∈ dictInsert assignments (slot_key slot)
          { filename := best.filename
            aspect_match := |best.aspect_ratio - slot.aspect_ratio|
            crop_impact := max 0 (1 - best.crop_tolerance) },
          p.2.filename ∈ best.filename :: used_images := by
        intro p hp
        rcases mem_dictInsert hp with h | h
        · rw [h]
          exact List.mem_cons_self _ _
        · exact List.mem_cons_of_mem _ (h2 p h)
      have h3' : ∀ p ∈ dictInsert assignments (slot_key slot)
          { filename := best.filename
            aspect_match := |best.aspect_ratio - slot.aspect_ratio|
            crop_impact := max 0 (1 - best.crop_tolerance) },
          p.2.filename ∈ analyses.map ImageAnalysis.filename := by
        intro p hp
        rcases mem_dictInsert hp with h | h
        · rw [h]
          exact List.mem_map_of_mem ImageAnalysis.filename hmem
        · exact h3 p h
      obtain ⟨ha, hb, hc⟩ := ih _ _ h1' h2' h3'
      refine ⟨ha, hb, hc.trans ?_⟩
      have := dictInsert_length assignments (slot_key slot)
        { filename := best.filename
          aspect_match := |best.aspect_ratio - slot.aspect_ratio|
          crop_impact := max 0 (1 - best.crop_tolerance) }
      simp only [List.length_cons]
      omega

/-- C7: for every `optimize_layout` call that resolves a known
pattern, each image filename appears in at most one slot assignment of
the returned layout, and the number of filled slots never exceeds the
pattern's slot count nor the number of input images. -/
theorem optimize_layout_unique_assignments (pattern_name : String)
    (image_metadatas : List ImageMeta) :
    match optimize_layout pattern_name image_metadatas with
    | .error _ => True
    | .ok res =>
      (res.assignments.map (fun p => p.2.filename)).Nodup ∧
      res.filled_slots ≤ res.total_slots ∧
      res.filled_slots ≤ image_metadatas.length := by
  unfold optimize_layout
  cases hf : create_bento_patterns.find? (fun p => p.name == pattern_name) with
  | none => trivial
  | some pattern =>
    obtain ⟨hnd, hsub, hlen⟩ := assign_loop_inv (image_metadatas.map analyze_image)
      (pattern.slots.mergeSort (fun a b => b.importance ≤ a.importance)) [] []
      (by simp) (by simp) (by simp)
    refine ⟨hnd, ?_, ?_⟩
    · calc (assign_loop (image_metadatas.map analyze_image)
            (pattern.slots.mergeSort (fun a b => b.importance ≤ a.importance))
            ([], [])).1.length ≤
          [].length + (pattern.slots.mergeSort
            (fun a b => b.importance ≤ a.importance)).length := hlen
      _ = pattern.slots.length := by simp [List.length_mergeSort]
    · have hsub' : ∀ x ∈ (assign_loop (image_metadatas.map analyze_image)
          (pattern.slots.mergeSort (fun a b => b.importance ≤ a.importance))
          ([], [])).1.map (fun p => p.2.filename),
          x ∈ (image_metadatas.map analyze_image).map ImageAnalysis.filename := by
        intro x hx
        obtain ⟨p, hp, he⟩ := List.mem_map.mp hx
        exact he ▸ hsub p hp
      calc (assign_loop (image_metadatas.map analyze_image)
            (pattern.slots.mergeSort (fun a b => b.importance ≤ a.importance))
            ([], [])).1.length =
          ((assign_loop (image_metadatas.map analyze_image)
            (pattern.slots.mergeSort (fun a b => b.importance ≤ a.importance))
            ([], [])).1.map (fun p => p.2.filename)).length := by
            rw [List.length_map]
      _ ≤ ((image_metadatas.map analyze_image).map ImageAnalysis.filename).length :=
            nodup_subset_length hnd hsub'
      _ = image_metadatas.length := by simp

/-! ## C4 -/

/-- C4 amended: at most 3 patterns are recommended; the three
threshold rules are as claimed; "balanced_mix" is included exactly
when no threshold rule fired or the category shares take more than one
distinct value (not merely when no single pattern covers 100% of the
distribution). -/
theorem recommend_patterns_amended (dist : List (String × ℚ))
    (hpos : ∀ p ∈ dist, 0 ≤ p.2)
    (hsum : pyGet dist "portrait" 0 + pyGet dist "landscape" 0 +
        pyGet dist "panoramic" 0 + pyGet dist "square" 0 ≤ 1) :
    (recommend_patterns dist).length ≤ 3 ∧
    ("portrait_showcase" ∈ recommend_patterns dist ↔
      pyGet dist "portrait" 0 > 0.5) ∧
    ("landscape_gallery" ∈ recommend_patterns dist ↔
      pyGet dist "landscape" 0 + pyGet dist "panoramic" 0 > 0.5) ∧
    ("grid_harmony" ∈ recommend_patterns dist ↔
      pyGet dist "square" 0 > 0.6) ∧
    ("balanced_mix" ∈ recommend_patterns dist ↔
      ((¬ pyGet dist "portrait" 0 > 0.5 ∧
        ¬ pyGet dist "landscape" 0 + pyGet dist "panoramic" 0 > 0.5 ∧
        ¬ pyGet dist "square" 0 > 0.6) ∨
      (dist.map Prod.snd).dedup.length > 1)) := by
  have hp := pyGet_nonneg hpos "portrait"
  have hl := pyGet_nonneg hpos "landscape"
  have hpan := pyGet_nonneg hpos "panoramic"
  have hs := pyGet_nonneg hpos "square"
  by_cases h1 : pyGet dist "portrait" 0 > 0.5
  · by_cases h2 : pyGet dist "landscape" 0 + pyGet dist "panoramic" 0 > 0.5
    · exfalso
      linarith
    · by_cases h3 : pyGet dist "square" 0 > 0.6
      · exfalso
        linarith
      · by_cases hb : (dist.map Prod.snd).dedup.length > 1 <;>
          simp +decide [recommend_patterns, h1, h2, h3, hb]
  · by_cases h2 : pyGet dist "landscape" 0 + pyGet dist "panoramic" 0 > 0.5
    · by_cases h3 : pyGet dist "square" 0 > 0.6
      · exfalso
        linarith
      · by_cases hb : (dist.map Prod.snd).dedup.length > 1 <;>
          simp +decide [recommend_patterns, h1, h2, h3, hb]
    · by_cases h3 : pyGet dist "square" 0 > 0.6
      · by_cases hb : (dist.map Prod.snd).dedup.length > 1 <;>
          simp +decide [recommend_patterns, h1, h2, h3, hb]
      · by_cases hb : (dist.map Prod.snd).dedup.length > 1 <;>
          simp +decide [recommend_patterns, h1, h2, h3, hb]

/-- Witness for C4 at the distribution of an all-portrait collection. -/
theorem recommend_patterns_amended_witness :
    ((∀ p ∈ ([("portrait", 1)] : List (String × ℚ)), 0 ≤ p.2) ∧
      pyGet [("portrait", 1)] "portrait" 0 + pyGet [("portrait", 1)] "landscape" 0 +
        pyGet [("portrait", 1)] "panoramic" 0 +
        pyGet [("portrait", 1)] "square" 0 ≤ 1) ∧
    ((recommend_patterns [("portrait", 1)]).length ≤ 3 ∧
    ("portrait_showcase" ∈ recommend_patterns [("portrait", 1)] ↔
      pyGet [("portrait", 1)] "portrait" 0 > 0.5) ∧
    ("landscape_gallery" ∈ recommend_patterns [("portrait", 1)] ↔
      pyGet [("portrait", 1)] "landscape" 0 +
        pyGet [("portrait", 1)] "panoramic" 0 > 0.5) ∧
    ("grid_harmony" ∈ recommend_patterns [("portrait", 1)] ↔
      pyGet [("portrait", 1)] "square" 0 > 0.6) ∧
    ("balanced_mix" ∈ recommend_patterns [("portrait", 1)] ↔
      ((¬ pyGet [("portrait", 1)] "portrait" 0 > 0.5 ∧
        ¬ pyGet [("portrait", 1)] "landscape" 0 +
          pyGet [("portrait", 1)] "panoramic" 0 > 0.5 ∧
        ¬ pyGet [("portrait", 1)] "square" 0 > 0.6) ∨
      (([("portrait", (1 : ℚ))].map Prod.snd).dedup.length > 1)))) := by
  have hpos : ∀ p ∈ ([("portrait", 1)] : List (String × ℚ)), 0 ≤ p.2 := by
    norm_num
  have hsum : pyGet [("portrait", 1)] "portrait" 0 +
      pyGet [("portrait", 1)] "landscape" 0 +
      pyGet [("portrait", 1)] "panoramic" 0 +
      pyGet [("portrait", 1)] "square" 0 ≤ 1 := by
    norm_num [pyGet, List.find?,
      show ("portrait" == "portrait") = true from by decide,
      show ("portrait" == "landscape") = false from by decide,
      show ("portrait" == "panoramic") = false from by decide,
      show ("portrait" == "square") = false from by decide]
  exact ⟨⟨hpos, hsum⟩, recommend_patterns_amended [("portrait", 1)] hpos hsum⟩

lemma pyGet_nil (k : String) (d : ℚ) : pyGet [] k d = d := rfl

lemma pyGet_cons (k0 : String) (v0 : ℚ) (rest : List (String × ℚ))
    (k : String) (d : ℚ) :
    pyGet ((k0, v0) :: rest) k d = if k0 = k then v0 else pyGet rest k d := by
  by_cases h : k0 = k
  · rw [if_pos h]
    unfold pyGet
    rw [List.find?_cons_of_pos _ (by simp [h])]
  · rw [if_neg h]
    unfold pyGet
    rw [List.find?_cons_of_neg _ (by simp [h])]

/-- C4 counterexample: a three-image collection with one landscape,
one panoramic and one square image yields the share distribution
(1/3, 1/3, 1/3); the recommender then returns only
["landscape_gallery"], omitting "balanced_mix", although
landscape_gallery's categories cover only 2/3 — not 100% — of the
distribution (and no other pattern covers 100% either). -/
theorem recommend_patterns_counterexample :
    collection_percentages
      [⟨some "a.jpg", some (.num 1600), some (.num 1000)⟩,
       ⟨some "b.jpg", some (.num 2500), some (.num 1000)⟩,
       ⟨some "c.jpg", some (.num 1000), some (.num 1000)⟩] =
      [("landscape", 1/3), ("panoramic", 1/3), ("square", 1/3)] ∧
    recommend_patterns [("landscape", 1/3), ("panoramic", 1/3), ("square", 1/3)] =
      ["landscape_gallery"] ∧
    "balanced_mix" ∉
      recommend_patterns [("landscape", 1/3), ("panoramic", 1/3), ("square", 1/3)] ∧
    pyGet [("landscape", 1/3), ("panoramic", 1/3), ("square", 1/3)] "landscape" 0 +
      pyGet [("landscape", 1/3), ("panoramic", 1/3), ("square", 1/3)] "panoramic" 0 =
      2 / 3 ∧
    pyGet [("landscape", 1/3), ("panoramic", 1/3), ("square", 1/3)] "portrait" 0 = 0 ∧
    pyGet [("landscape", 1/3), ("panoramic", 1/3), ("square", 1/3)] "square" 0 =
      1 / 3 ∧
    (2 / 3 : ℚ) ≠ 1 ∧ (0 : ℚ) ≠ 1 ∧ (1 / 3 : ℚ) ≠ 1 := by
  have hrec : recommend_patterns
      [("landscape", 1/3), ("panoramic", 1/3), ("square", 1/3)] =
      ["landscape_gallery"] := by
    norm_num +decide [recommend_patterns, pyGet_cons, pyGet_nil]
  refine ⟨?_, hrec, by rw [hrec]; decide, ?_, ?_, ?_, by norm_num, by norm_num,
    by norm_num⟩
  · norm_num +decide [collection_percentages, analyze_image, categorize_aspect,
      category_name, uniqueFirst, List.count_cons, List.count_nil]
  · norm_num +decide [pyGet_cons, pyGet_nil]
  · norm_num +decide [pyGet_cons, pyGet_nil]
  · norm_num +decide [pyGet_cons, pyGet_nil]
